import Mathlib

/-!
Verification of the scaffold web service in
`src/terraform/templates/service/src/app.py`.

The program is a FastAPI application with two routes:

  app = FastAPI(title="SERVICE_NAME")

  @app.get("/")
  async def root():
      return {"service": "SERVICE_NAME",
              "status": "running",
              "environment": os.getenv("ENVIRONMENT", "production")}

  @app.get("/health")
  async def health():
      return {"status": "healthy"}

We embed it shallowly.  The process environment is a map from variable
names to optional string values.  Because the claims speak about side
effects, each handler is embedded in state-passing style: it takes the
process environment and returns its response body together with the
(possibly updated) environment, mirroring that `os.getenv` only reads.
Application startup (`app = FastAPI(...)`) is embedded as a separate
phase so that "read per request, not cached at startup" is expressible:
the module-level code reads nothing from the environment, it only fixes
the title.

Response bodies are JSON objects whose values here are all strings, so a
body is an association list `List (String × String)` in insertion order
(Python dicts preserve insertion order).  FastAPI serialises handler
return values as JSON with status 200 and content type
`application/json`; an unmatched path gets the framework's standard 404
JSON response `{"detail": "Not Found"}`.
-/

/-- A process environment: maps variable names to optional values. -/
def Env : Type := String → Option String

/-- Python `os.getenv(key, default)` in state-passing form: it returns the
variable's value (or the default when the variable is unset) and leaves
the environment untouched. -/
def os_getenv (key default : String) (env : Env) : String × Env :=
  ((env key).getD default, env)

/-- A JSON object whose values are strings, as an insertion-ordered
association list. -/
abbrev Body : Type := List (String × String)

/-- The `root` handler (`GET /` in `app.py`): builds the service-metadata
object, reading `ENVIRONMENT` from the process environment with default
`"production"`. -/
def root (env : Env) : Body × Env :=
  let p := os_getenv "ENVIRONMENT" "production" env
  ([("service", "SERVICE_NAME"),
    ("status", "running"),
    ("environment", p.1)], p.2)

/-- The `health` handler (`GET /health` in `app.py`): the constant
one-field object. -/
def health (env : Env) : Body × Env :=
  ([("status", "healthy")], env)

/-- An HTTP response: status code, content type, JSON body. -/
structure Response where
  statusCode : Nat
  contentType : String
  body : Body
deriving DecidableEq

/-- State built at application startup. `app = FastAPI(title="SERVICE_NAME")`
only fixes the title; the module-level code reads nothing from the
process environment. -/
structure AppState where
  title : String
deriving DecidableEq

/-- Application startup: evaluate the module-level code of `app.py` under
the startup-time environment `env0`.  No environment variable is read. -/
def appInit (_env0 : Env) : AppState :=
  { title := "SERVICE_NAME" }

/-- Content type FastAPI puts on JSON responses. -/
def jsonContentType : String := "application/json"

/-- Route dispatch of the FastAPI application: the two registered GET
routes answer 200 with the handler's body serialised as JSON; any other
request gets the framework's standard 404 JSON response. -/
def handle (_st : AppState) (method path : String) (env : Env) :
    Response × Env :=
  if method = "GET" ∧ path = "/" then
    let p := root env
    ({ statusCode := 200, contentType := jsonContentType, body := p.1 }, p.2)
  else if method = "GET" ∧ path = "/health" then
    let p := health env
    ({ statusCode := 200, contentType := jsonContentType, body := p.1 }, p.2)
  else
    ({ statusCode := 404, contentType := jsonContentType,
       body := [("detail", "Not Found")] }, env)

/-- A full serve: start the application under `env0`, then handle one
request under the request-time environment `env`. -/
def serve (env0 : Env) (method path : String) (env : Env) :
    Response × Env :=
  handle (appInit env0) method path env

/-- The environment with no variables set. -/
def envEmpty : Env := fun _ => none

/-- The environment with exactly `ENVIRONMENT=staging`. -/
def envStaging : Env :=
  fun k => if k = "ENVIRONMENT" then some "staging" else none

/-- The environment with `ENVIRONMENT` set to the empty string. -/
def envBlank : Env :=
  fun k => if k = "ENVIRONMENT" then some "" else none

/-- Claim C1: if the process environment has no variable `ENVIRONMENT`,
the body answered to `GET /` has environment field `"production"`. -/
theorem root_default_production (env0 env : Env)
    (h : env "ENVIRONMENT" = none) :
    (serve env0 "GET" "/" env).1.body =
      [("service", "SERVICE_NAME"), ("status", "running"),
       ("environment", "production")] := by
  simp [serve, handle, root, os_getenv, h]

/-- Witness for C1 at the concrete empty environment. -/
theorem root_default_production_witness :
    (serve envEmpty "GET" "/" envEmpty).1.body =
      [("service", "SERVICE_NAME"), ("status", "running"),
       ("environment", "production")] :=
  root_default_production envEmpty envEmpty rfl

/-- Claim C2: if the process environment maps `ENVIRONMENT` to
`"staging"`, the body answered to `GET /` has environment field
`"staging"`. -/
theorem root_env_staging (env0 env : Env)
    (h : env "ENVIRONMENT" = some "staging") :
    (serve env0 "GET" "/" env).1.body =
      [("service", "SERVICE_NAME"), ("status", "running"),
       ("environment", "staging")] := by
  simp [serve, handle, root, os_getenv, h]

/-- Witness for C2 at the concrete staging environment. -/
theorem root_env_staging_witness :
    (serve envEmpty "GET" "/" envStaging).1.body =
      [("service", "SERVICE_NAME"), ("status", "running"),
       ("environment", "staging")] :=
  root_env_staging envEmpty envStaging rfl

/-- Claim C3: under every startup and request environment, `GET /health`
answers exactly the one-field object `{"status": "healthy"}`. -/
theorem health_body_exact (env0 env : Env) :
    (serve env0 "GET" "/health" env).1.body = [("status", "healthy")] := by
  simp [serve, handle, health]

/-- Claim C4: under every environment, both `GET /` and `GET /health`
answer status 200 with the JSON content type. -/
theorem endpoints_200_json (env0 env : Env) :
    ((serve env0 "GET" "/" env).1.statusCode = 200 ∧
      (serve env0 "GET" "/" env).1.contentType = jsonContentType) ∧
    ((serve env0 "GET" "/health" env).1.statusCode = 200 ∧
      (serve env0 "GET" "/health" env).1.contentType = jsonContentType) := by
  refine ⟨⟨?_, ?_⟩, ⟨?_, ?_⟩⟩ <;> simp [serve, handle]

/-- Claim C5: the environment field answered to `GET /` is exactly the
request-time value of `ENVIRONMENT` (default `"production"` only when it
is unset), for every startup-time environment `env0` — so the value is
read afresh per request, never cached at startup. -/
theorem root_env_fresh_per_request (env0 env : Env) :
    ((serve env0 "GET" "/" env).1.body).lookup "environment" =
      some ((env "ENVIRONMENT").getD "production") := by
  simp [serve, handle, root, os_getenv, Body, List.lookup]

/-- Claim C6: a GET request to any path other than `/` and `/health`
gets the framework's 404 response, in particular not status 200. -/
theorem unknown_path_404 (env0 env : Env) (path : String)
    (h1 : path ≠ "/") (h2 : path ≠ "/health") :
    (serve env0 "GET" path env).1.statusCode = 404 ∧
      (serve env0 "GET" path env).1.statusCode ≠ 200 := by
  have : (serve env0 "GET" path env).1.statusCode = 404 := by
    simp [serve, handle, h1, h2]
  exact ⟨this, by simp [this]⟩

/-- Witness for C6 at the concrete unknown path `/nope`. -/
theorem unknown_path_404_witness :
    (serve envEmpty "GET" "/nope" envEmpty).1.statusCode = 404 ∧
      (serve envEmpty "GET" "/nope" envEmpty).1.statusCode ≠ 200 :=
  unknown_path_404 envEmpty envEmpty "/nope" (by decide) (by decide)

/-- Claim C7: handling any request (any method, any path, either handler
or the 404 branch) leaves the process environment unchanged. -/
theorem handlers_no_side_effect (env0 : Env) (method path : String)
    (env : Env) :
    (serve env0 method path env).2 = env := by
  by_cases h1 : method = "GET" ∧ path = "/"
  · simp [serve, handle, root, os_getenv, h1]
  · by_cases h2 : method = "GET" ∧ path = "/health"
    · simp [serve, handle, health, h1, h2]
    · simp [serve, handle, h1, h2]

/-- Claim C8: both handlers are total — under every startup and request
environment, each of `GET /` and `GET /health` evaluates to a normal
200 response with a well-formed body and the unchanged environment; no
failure mode is reachable. -/
theorem handlers_total (env0 env : Env) :
    (∃ b : Body, serve env0 "GET" "/" env =
      ({ statusCode := 200, contentType := jsonContentType, body := b },
        env)) ∧
    (∃ b : Body, serve env0 "GET" "/health" env =
      ({ statusCode := 200, contentType := jsonContentType, body := b },
        env)) := by
  constructor
  · exact ⟨(root env).1, by simp [serve, handle, root, os_getenv]⟩
  · exact ⟨(health env).1, by simp [serve, handle, health]⟩

/-- Claim C9: if `ENVIRONMENT` is set to the empty string, `GET /`
answers environment field `""`: the `"production"` default applies only
when the variable is entirely unset. -/
theorem root_env_empty_string (env0 env : Env)
    (h : env "ENVIRONMENT" = some "") :
    (serve env0 "GET" "/" env).1.body =
      [("service", "SERVICE_NAME"), ("status", "running"),
       ("environment", "")] := by
  simp [serve, handle, root, os_getenv, h]

/-- Witness for C9 at the concrete environment with `ENVIRONMENT=""`. -/
theorem root_env_empty_string_witness :
    (serve envEmpty "GET" "/" envBlank).1.body =
      [("service", "SERVICE_NAME"), ("status", "running"),
       ("environment", "")] :=
  root_env_empty_string envEmpty envBlank rfl

/-- Claim C10: both handlers are deterministic — two `GET /` requests
under identical request environments answer identical bodies (whatever
the startup environments), and two `GET /health` requests answer
identical bodies regardless of environment: the request environments
`e3` and `e4` there are arbitrary and may differ. -/
theorem handlers_deterministic (env0 env0' e1 e2 e3 e4 : Env)
    (h : e1 = e2) :
    (serve env0 "GET" "/" e1).1.body =
        (serve env0' "GET" "/" e2).1.body ∧
      (serve env0 "GET" "/health" e3).1.body =
        (serve env0' "GET" "/health" e4).1.body := by
  subst h
  constructor
  · simp [serve, handle]
  · simp [serve, handle, health]

/-- Witness for C10 at concrete environments: the two `GET /` runs share
the request environment, while the two `GET /health` runs use different
request environments (no `ENVIRONMENT` versus `ENVIRONMENT=staging`). -/
theorem handlers_deterministic_witness :
    (serve envEmpty "GET" "/" envStaging).1.body =
        (serve envBlank "GET" "/" envStaging).1.body ∧
      (serve envEmpty "GET" "/health" envEmpty).1.body =
        (serve envBlank "GET" "/health" envStaging).1.body :=
  handlers_deterministic envEmpty envBlank envStaging envStaging
    envEmpty envStaging rfl
